import Mathlib

/-!
The rmm logger: default sink, default pattern, default logger.

A shallow embedding of `cpp/src/logger.cpp`.

The three functions of the file are embedded as state-passing functions on a
`Process`: the process environment, the function-local static `logger_` of
`default_logger`, and the chronological trace of the calls the code has made
into the C library (`std::getenv`) and into the logging engine (constructors
of sinks and loggers, `set_pattern`).

The logging engine (`rapids_logger`) is a third-party collaborator.  What the
code does with it is to call constructors and one method; each such call either
returns normally or throws.  Which of the two happens is given by an `Engine`
oracle, a parameter of every function.
-/

namespace rmm

/-- The process environment: `NAME=value` entries, first match wins. -/
abbrev Env := List (String × String)

/-- `std::getenv`: `none` is the null pointer, `some v` a pointer to the value
(which may be the empty string). -/
def getenv (env : Env) (name : String) : Option String :=
  env.lookup name

/-- An exception thrown out of the logging engine. -/
abbrev Error := String

/-- The two sink classes the file instantiates, with their constructor arguments.
`rapids_logger::basic_file_sink_mt(std::string const& filename, bool truncate)`
mirrors `spdlog::sinks::basic_file_sink`: the second argument is the truncate
flag (true: the file is emptied when opened; false: records are appended). -/
inductive Sink where
  | basic_file_sink_mt (filename : String) (truncate : Bool)
  | stderr_sink_mt
  deriving DecidableEq, Repr

/-- A `rapids_logger::logger` object.  `id` is the object identity: the ordinal
of the constructor call that created it within the process.  `pattern` is
`none` until `set_pattern` has been applied (the engine then uses its own
built-in layout). -/
structure Logger where
  id : Nat
  name : String
  sinks : List Sink
  pattern : Option String
  deriving DecidableEq, Repr

/-- A completed call out of the file: an environment read, a constructor that
returned, or `set_pattern` that returned. -/
inductive Event where
  | getenv (name : String)
  | basic_file_sink_mt (filename : String) (truncate : Bool)
  | stderr_sink_mt
  | logger (name : String) (sinks : List Sink)
  | set_pattern (pattern : String)
  deriving DecidableEq, Repr

/-- Whether an event is the construction of a file sink. -/
def Event.isFileSink : Event → Bool
  | .basic_file_sink_mt _ _ => true
  | _ => false

/-- Whether an event is the construction of a logger. -/
def Event.isLogger : Event → Bool
  | .logger _ _ => true
  | _ => false

/-- Whether an event is an environment read. -/
def Event.isGetenv : Event → Bool
  | .getenv _ => true
  | _ => false

/-- The behaviour of the logging engine at one call of the code: for each
engine call, `none` when it returns normally and `some e` when it throws `e`. -/
structure Engine where
  basic_file_sink_mt : String → Bool → Option Error
  stderr_sink_mt : Option Error
  logger : String → List Sink → Option Error
  set_pattern : String → Option Error

/-- The engine when nothing throws. -/
def Engine.nothrow : Engine where
  basic_file_sink_mt := fun _ _ => none
  stderr_sink_mt := none
  logger := fun _ _ => none
  set_pattern := fun _ => none

/-- The state of a process as far as this file is concerned. `logger_` is the
function-local static of `default_logger`; `none` means its initialisation has
not completed. -/
structure Process where
  env : Env
  logger_ : Option Logger
  trace : List Event
  deriving DecidableEq, Repr

/-- A process at start-up, with environment `env`. -/
def Process.start (env : Env) : Process :=
  { env := env, logger_ := none, trace := [] }

/-- Append a completed call to the trace. -/
def Process.record (p : Process) (ev : Event) : Process :=
  { p with trace := p.trace ++ [ev] }

/-- `rmm::default_sink` (the `#else` branch of the environment read; the
`_MSC_VER` branch yields the same `filename`, null exactly when the variable is
not found, and frees its copy after the sink has been built). -/
def default_sink (eng : Engine) (p : Process) : Except Error Sink × Process :=
  let filename := getenv p.env "RMM_DEBUG_LOG_FILE"
  let p := p.record (.getenv "RMM_DEBUG_LOG_FILE")
  match filename with
  | some filename =>
    match eng.basic_file_sink_mt filename true with
    | some e => (.error e, p)
    | none =>
      (.ok (.basic_file_sink_mt filename true),
        p.record (.basic_file_sink_mt filename true))
  | none =>
    match eng.stderr_sink_mt with
    | some e => (.error e, p)
    | none => (.ok .stderr_sink_mt, p.record .stderr_sink_mt)

/-- `rmm::default_pattern`. -/
def default_pattern : String := "[%6t][%H:%M:%S:%f][%-6l] %v"

/-- The lambda that initialises the static `logger_` in `default_logger`:
construct the logger named "RMM" over the one sink `default_sink` returns, set
the pattern, return the logger.  Nothing is caught: an exception of any step
leaves the lambda. -/
def logger_init (eng : Engine) (p : Process) : Except Error Logger × Process :=
  match default_sink eng p with
  | (.error e, p) => (.error e, p)
  | (.ok sink, p) =>
    match eng.logger "RMM" [sink] with
    | some e => (.error e, p)
    | none =>
      let l : Logger :=
        { id := p.trace.countP Event.isLogger, name := "RMM", sinks := [sink], pattern := none }
      let p := p.record (.logger "RMM" [sink])
      match eng.set_pattern default_pattern with
      | some e => (.error e, p)
      | none =>
        (.ok { l with pattern := some default_pattern },
          p.record (.set_pattern default_pattern))

/-- `rmm::default_logger`.  A function-local static is initialised the first
time control passes its declaration; when the initialiser throws, the static
stays uninitialised and the exception reaches the caller.  Once initialised the
declaration is a no-op and the function returns the stored object. -/
def default_logger (eng : Engine) (p : Process) : Except Error Logger × Process :=
  match p.logger_ with
  | some l => (.ok l, p)
  | none =>
    match logger_init eng p with
    | (.error e, p) => (.error e, p)
    | (.ok l, p) => (.ok l, { p with logger_ := some l })

/-- What a program does that bears on this file: it changes its environment
(`setenv`, `unsetenv`, `putenv`; the result is the new environment), or it
calls `default_logger`, the engine behaving as `eng` during that call. -/
inductive Op where
  | environ (env : Env)
  | default_logger (eng : Engine)

/-- One operation: the value a call of `default_logger` gave (or the exception),
and the next state. -/
def step (op : Op) (p : Process) : Option (Except Error Logger) × Process :=
  match op with
  | .environ env => (none, { p with env := env })
  | .default_logger eng =>
    let r := default_logger eng p
    (some r.1, r.2)

/-- Run a sequence of operations; the outcomes of the calls of `default_logger`
in order, and the final state. -/
def run : List Op → Process → List (Except Error Logger) × Process
  | [], p => ([], p)
  | op :: ops, p =>
    let r := step op p
    let rest := run ops r.2
    (r.1.toList ++ rest.1, rest.2)

/-- Whether a sink empties its file when it opens it (the truncate flag of the
file sink constructor) instead of appending to what the file holds.  The
standard-error sink has no file. -/
def Sink.truncates : Sink → Bool
  | .basic_file_sink_mt _ truncate => truncate
  | .stderr_sink_mt => false

/-- An engine whose `set_pattern` throws `e` and whose constructors return. -/
def Engine.set_pattern_throws (e : Error) : Engine :=
  { Engine.nothrow with set_pattern := fun _ => some e }

/-- Whether a call of `default_logger` ended by throwing. -/
def threw : Except Error Logger → Bool
  | .error _ => true
  | .ok _ => false

/-! Lemmas on `default_sink` -/

theorem default_sink_of_set (eng : Engine) (p : Process) (path : String)
    (hset : getenv p.env "RMM_DEBUG_LOG_FILE" = some path)
    (hok : eng.basic_file_sink_mt path true = none) :
    default_sink eng p =
      (.ok (.basic_file_sink_mt path true),
        (p.record (.getenv "RMM_DEBUG_LOG_FILE")).record (.basic_file_sink_mt path true)) := by
  simp [default_sink, hset, hok]

theorem default_sink_of_unset (eng : Engine) (p : Process)
    (hunset : getenv p.env "RMM_DEBUG_LOG_FILE" = none)
    (hok : eng.stderr_sink_mt = none) :
    default_sink eng p =
      (.ok .stderr_sink_mt,
        (p.record (.getenv "RMM_DEBUG_LOG_FILE")).record .stderr_sink_mt) := by
  simp [default_sink, hunset, hok]

/-- What `default_sink` can return, by the state of the variable. -/
theorem default_sink_ok (eng : Engine) (p : Process) (s : Sink)
    (h : (default_sink eng p).1 = .ok s) :
    (∃ path, getenv p.env "RMM_DEBUG_LOG_FILE" = some path ∧
        s = .basic_file_sink_mt path true) ∨
      (getenv p.env "RMM_DEBUG_LOG_FILE" = none ∧ s = .stderr_sink_mt) := by
  unfold default_sink at h
  cases hg : getenv p.env "RMM_DEBUG_LOG_FILE" with
  | none =>
    right
    cases he : eng.stderr_sink_mt with
    | none => simp [hg, he] at h; exact ⟨rfl, h.symm⟩
    | some e => simp [hg, he] at h
  | some path =>
    left
    cases he : eng.basic_file_sink_mt path true with
    | none => simp [hg, he] at h; exact ⟨path, rfl, h.symm⟩
    | some e => simp [hg, he] at h

/-- `default_sink` touches neither the environment nor the static, reads the
environment once and constructs no logger. -/
theorem default_sink_frame (eng : Engine) (p : Process) :
    (default_sink eng p).2.env = p.env ∧
      (default_sink eng p).2.logger_ = p.logger_ ∧
      (default_sink eng p).2.trace.countP Event.isGetenv
        = p.trace.countP Event.isGetenv + 1 ∧
      (default_sink eng p).2.trace.countP Event.isLogger
        = p.trace.countP Event.isLogger := by
  cases hg : getenv p.env "RMM_DEBUG_LOG_FILE" with
  | none =>
    cases he : eng.stderr_sink_mt <;>
      simp [default_sink, hg, he, Process.record, List.countP_append, Event.isGetenv,
        Event.isLogger]
  | some path =>
    cases he : eng.basic_file_sink_mt path true <;>
      simp [default_sink, hg, he, Process.record, List.countP_append, Event.isGetenv,
        Event.isLogger]

/-! Lemmas on the initialiser and on `default_logger` -/

/-- The initialiser never writes the static itself and never changes the
environment. -/
theorem logger_init_frame (eng : Engine) (p : Process) :
    (logger_init eng p).2.env = p.env ∧ (logger_init eng p).2.logger_ = p.logger_ := by
  have hf := default_sink_frame eng p
  unfold logger_init
  rcases hds : default_sink eng p with ⟨res, p1⟩
  rw [hds] at hf
  cases res with
  | error e => exact ⟨hf.1, hf.2.1⟩
  | ok sink =>
    cases hl : eng.logger "RMM" [sink] with
    | some e => simp [hl]; exact ⟨hf.1, hf.2.1⟩
    | none =>
      cases hsp : eng.set_pattern default_pattern with
      | some e => simp [hl, hsp, Process.record]; exact ⟨hf.1, hf.2.1⟩
      | none => simp [hl, hsp, Process.record]; exact ⟨hf.1, hf.2.1⟩

/-- When the initialiser returns, every step returned: the logger is the one
built over the sink of `default_sink`, with the pattern applied. -/
theorem logger_init_ok (eng : Engine) (p q : Process) (l : Logger)
    (h : logger_init eng p = (.ok l, q)) :
    ∃ s, (default_sink eng p).1 = .ok s ∧
      eng.logger "RMM" [s] = none ∧
      eng.set_pattern default_pattern = none ∧
      l = { id := (default_sink eng p).2.trace.countP Event.isLogger, name := "RMM",
            sinks := [s], pattern := some default_pattern } ∧
      q = ((default_sink eng p).2.record (.logger "RMM" [s])).record
            (.set_pattern default_pattern) := by
  unfold logger_init at h
  rcases hds : default_sink eng p with ⟨res, p1⟩
  rw [hds] at h
  cases res with
  | error e => simp at h
  | ok sink =>
    cases hl : eng.logger "RMM" [sink] with
    | some e => simp [hl] at h
    | none =>
      cases hsp : eng.set_pattern default_pattern with
      | some e => simp [hl, hsp] at h
      | none =>
        simp [hl, hsp] at h
        refine ⟨sink, rfl, ?_, ?_, h.1.symm, h.2.symm⟩ <;> first | rfl | assumption

/-- When every step returns, the initialiser returns. -/
theorem logger_init_of_ok (eng : Engine) (p : Process) (s : Sink)
    (hs : (default_sink eng p).1 = .ok s)
    (hl : eng.logger "RMM" [s] = none)
    (hsp : eng.set_pattern default_pattern = none) :
    logger_init eng p =
      (.ok { id := (default_sink eng p).2.trace.countP Event.isLogger, name := "RMM",
             sinks := [s], pattern := some default_pattern },
        ((default_sink eng p).2.record (.logger "RMM" [s])).record
          (.set_pattern default_pattern)) := by
  unfold logger_init
  rcases hds : default_sink eng p with ⟨res, p1⟩
  rw [hds] at hs
  simp at hs
  subst hs
  simp [hl, hsp]

/-- When a step throws, the initialiser throws the same exception. -/
theorem logger_init_error (eng : Engine) (p : Process) (e : Error)
    (hfail : (default_sink eng p).1 = .error e ∨
      (∃ s, (default_sink eng p).1 = .ok s ∧ eng.logger "RMM" [s] = some e) ∨
      (∃ s, (default_sink eng p).1 = .ok s ∧ eng.logger "RMM" [s] = none ∧
        eng.set_pattern default_pattern = some e)) :
    (logger_init eng p).1 = .error e := by
  unfold logger_init
  rcases hds : default_sink eng p with ⟨res, p1⟩
  rw [hds] at hfail
  rcases hfail with h | ⟨s, h, hl⟩ | ⟨s, h, hl, hsp⟩
  · simp at h; subst h; rfl
  · simp at h; subst h; simp [hl]
  · simp at h; subst h; simp [hl, hsp]

/-- Once the static is initialised, a call returns it and changes nothing. -/
theorem default_logger_of_some (eng : Engine) (p : Process) (l : Logger)
    (h : p.logger_ = some l) : default_logger eng p = (.ok l, p) := by
  simp [default_logger, h]

/-- A first call that returns has run the initialiser to its end and stored
its result. -/
theorem default_logger_first_ok (eng : Engine) (p q : Process) (l : Logger)
    (hfresh : p.logger_ = none) (h : default_logger eng p = (.ok l, q)) :
    logger_init eng p = (.ok l, { q with logger_ := p.logger_ }) ∧ q.logger_ = some l := by
  have hf := logger_init_frame eng p
  unfold default_logger at h
  rw [hfresh] at h
  rcases hi : logger_init eng p with ⟨res, p1⟩
  rw [hi] at h hf
  cases res with
  | error e => simp at h
  | ok l1 =>
    simp at h
    obtain ⟨h1, h2⟩ := h
    subst h1
    subst h2
    obtain ⟨env1, st1, tr1⟩ := p1
    simp at hf
    simp [hf.2]

/-- A first call whose initialiser throws: the exception reaches the caller and
the static stays uninitialised. -/
theorem default_logger_first_error (eng : Engine) (p : Process) (e : Error)
    (hfresh : p.logger_ = none) (h : (logger_init eng p).1 = .error e) :
    (default_logger eng p).1 = .error e ∧ (default_logger eng p).2.logger_ = none := by
  have hf := logger_init_frame eng p
  unfold default_logger
  rw [hfresh]
  rcases hi : logger_init eng p with ⟨res, p1⟩
  rw [hi] at h hf
  simp at h
  subst h
  simp
  rw [← hfresh]
  exact hf.2

/-- What a first call that returns has done: one environment read, one logger
construction, and the logger it returns is the configured one. -/
theorem default_logger_first_ok_facts (eng : Engine) (p q : Process) (l : Logger)
    (hfresh : p.logger_ = none) (h : default_logger eng p = (.ok l, q)) :
    q.logger_ = some l ∧ q.env = p.env ∧
      q.trace.countP Event.isLogger = p.trace.countP Event.isLogger + 1 ∧
      q.trace.countP Event.isGetenv = p.trace.countP Event.isGetenv + 1 ∧
      l.id = p.trace.countP Event.isLogger ∧ l.name = "RMM" ∧
      (∃ s, (default_sink eng p).1 = .ok s ∧ l.sinks = [s]) ∧
      l.pattern = some default_pattern := by
  obtain ⟨hinit, hq⟩ := default_logger_first_ok eng p q l hfresh h
  obtain ⟨s, hs, _, _, hl, hq2⟩ := logger_init_ok eng p _ l hinit
  obtain ⟨hf1, _, hf3, hf4⟩ := default_sink_frame eng p
  have henv := congrArg Process.env hq2
  have htr := congrArg Process.trace hq2
  simp [Process.record] at henv htr
  refine ⟨hq, by rw [henv, hf1], ?_, ?_, ?_, ?_, ⟨s, hs, ?_⟩, ?_⟩
  · rw [htr]; simp [List.countP_append, List.countP_cons, Event.isLogger, hf4]
  · rw [htr]; simp [List.countP_append, List.countP_cons, Event.isGetenv, hf3]
  · rw [hl]; exact hf4
  · rw [hl]
  · rw [hl]
  · rw [hl]

/-! Lemmas on runs -/

/-- From a state whose static is initialised, every call returns the stored
logger, and nothing is executed: the static and the trace stay as they are. -/
theorem run_of_some (ops : List Op) (p : Process) (l : Logger)
    (h : p.logger_ = some l) :
    (∀ r ∈ (run ops p).1, r = .ok l) ∧ (run ops p).2.logger_ = some l ∧
      (run ops p).2.trace = p.trace := by
  induction ops generalizing p with
  | nil => simp [run, h]
  | cons op ops ih =>
    cases op with
    | environ env =>
      have := ih { p with env := env } h
      simpa [run, step] using this
    | default_logger eng =>
      have := ih p h
      simp only [run, step, default_logger_of_some eng p l h]
      simpa using this

/-- Every logger a call returns, in any run from a state whose static is not
initialised, has gone through the whole initialiser. -/
theorem run_ok_configured (ops : List Op) (p : Process) (hfresh : p.logger_ = none)
    (l : Logger) (hl : Except.ok l ∈ (run ops p).1) :
    l.name = "RMM" ∧ (∃ s, l.sinks = [s]) ∧ l.pattern = some default_pattern := by
  induction ops generalizing p with
  | nil => simp [run] at hl
  | cons op ops ih =>
    cases op with
    | environ env =>
      apply ih { p with env := env } hfresh
      simpa [run, step] using hl
    | default_logger eng =>
      simp only [run, step] at hl
      rcases hd : default_logger eng p with ⟨res, q⟩
      rw [hd] at hl
      cases res with
      | error e =>
        have hq : q.logger_ = none := by
          have hi : (logger_init eng p).1 = .error e := by
            have := hd
            unfold default_logger at this
            rw [hfresh] at this
            rcases hi : logger_init eng p with ⟨res1, p1⟩
            rw [hi] at this
            cases res1 with
            | error e1 => simp at this; simp [this.1]
            | ok l1 => simp at this
          have := (default_logger_first_error eng p e hfresh hi).2
          rw [hd] at this
          exact this
        apply ih q hq
        simpa using hl
      | ok l1 =>
        obtain ⟨hq, _, _, _, _, hn, ⟨s, _, hs⟩, hp⟩ :=
          default_logger_first_ok_facts eng p q l1 hfresh hd
        simp at hl
        rcases hl with hl | hl
        · subst hl; exact ⟨hn, ⟨s, hs⟩, hp⟩
        · have := (run_of_some ops q l1 hq).1 _ hl
          simp at this
          subst this
          exact ⟨hn, ⟨s, hs⟩, hp⟩

/-- The initialiser constructs one logger at most. -/
theorem logger_init_count (eng : Engine) (p : Process) :
    (logger_init eng p).2.trace.countP Event.isLogger
      ≤ p.trace.countP Event.isLogger + 1 := by
  have hf := (default_sink_frame eng p).2.2.2
  unfold logger_init
  rcases hds : default_sink eng p with ⟨res, p1⟩
  rw [hds] at hf
  simp only at hf
  cases res with
  | error e => simp only; omega
  | ok sink =>
    cases hl : eng.logger "RMM" [sink] with
    | some e => simp only [hl]; omega
    | none =>
      cases hsp : eng.set_pattern default_pattern <;>
        simp [hl, hsp, Process.record, List.countP_append, List.countP_cons, Event.isLogger, hf]

/-- A first call that throws: the static stays uninitialised, the environment
has been read once, and one logger at most has been constructed on the way. -/
theorem default_logger_first_error_facts (eng : Engine) (p q : Process) (e : Error)
    (hfresh : p.logger_ = none) (h : default_logger eng p = (.error e, q)) :
    q.logger_ = none ∧
      q.trace.countP Event.isLogger ≤ p.trace.countP Event.isLogger + 1 := by
  have hf := logger_init_frame eng p
  have hc := logger_init_count eng p
  unfold default_logger at h
  rw [hfresh] at h
  rcases hi : logger_init eng p with ⟨res, p1⟩
  rw [hi] at h hf hc
  cases res with
  | ok l1 => simp at h
  | error e1 =>
    simp at h
    obtain ⟨_, h2⟩ := h
    subst h2
    simp only at hf hc
    exact ⟨by rw [hf.2, hfresh], hc⟩

/-- In any run from a state whose static is not initialised: the loggers
constructed are at most one more than the calls that threw; the calls that
returned all returned one logger; and that logger is the one stored in the end. -/
theorem run_general (ops : List Op) (p : Process) (hfresh : p.logger_ = none) :
    (run ops p).2.trace.countP Event.isLogger
        ≤ p.trace.countP Event.isLogger + (run ops p).1.countP threw + 1 ∧
      (∀ l1 l2, Except.ok l1 ∈ (run ops p).1 → Except.ok l2 ∈ (run ops p).1 → l1 = l2) ∧
      (∀ l, Except.ok l ∈ (run ops p).1 → (run ops p).2.logger_ = some l) := by
  induction ops generalizing p with
  | nil => simp [run]
  | cons op ops ih =>
    cases op with
    | environ env =>
      have := ih { p with env := env } hfresh
      simpa [run, step] using this
    | default_logger eng =>
      simp only [run, step]
      rcases hd : default_logger eng p with ⟨res, q⟩
      cases res with
      | error e =>
        obtain ⟨hq, hc⟩ := default_logger_first_error_facts eng p q e hfresh hd
        obtain ⟨ih1, ih2, ih3⟩ := ih q hq
        refine ⟨?_, ?_, ?_⟩
        · simp [List.countP_cons, threw]
          omega
        · intro l1 l2 h1 h2
          simp at h1 h2
          exact ih2 l1 l2 h1 h2
        · intro l h1
          simp at h1
          exact ih3 l h1
      | ok l =>
        obtain ⟨hq, _, hc, _⟩ := default_logger_first_ok_facts eng p q l hfresh hd
        obtain ⟨hall, hst, htr⟩ := run_of_some ops q l hq
        have hmem : ∀ l1, Except.ok l1 ∈ (some (Except.ok l : Except Error Logger)).toList
            ++ (run ops q).1 → l1 = l := by
          intro l1 h1
          simp at h1
          rcases h1 with h1 | h1
          · exact h1
          · have := hall _ h1
            simpa using this
        refine ⟨?_, ?_, ?_⟩
        · simp only [htr, hc]
          omega
        · intro l1 l2 h1 h2
          rw [hmem l1 h1, hmem l2 h2]
        · intro l1 h1
          rw [hmem l1 h1]
          exact hst

/-! The sink selector -/

/-- C1: in every process whose environment has RMM_DEBUG_LOG_FILE set to a
non-empty string `path`, `default_sink` (the file sink constructor returning)
returns a file sink whose path is exactly `path`, and not the standard-error
sink. -/
theorem default_sink_file_when_set (eng : Engine) (p : Process) (path : String)
    (hset : getenv p.env "RMM_DEBUG_LOG_FILE" = some path) (_hne : path ≠ "")
    (hok : eng.basic_file_sink_mt path true = none) :
    (default_sink eng p).1 = .ok (Sink.basic_file_sink_mt path true) ∧
      (default_sink eng p).1 ≠ .ok Sink.stderr_sink_mt := by
  rw [default_sink_of_set eng p path hset hok]
  simp

theorem default_sink_file_when_set_witness :
    (default_sink Engine.nothrow
        (Process.start [("HOME", "/root"), ("RMM_DEBUG_LOG_FILE", "/tmp/rmm.log")])).1
        = .ok (Sink.basic_file_sink_mt "/tmp/rmm.log" true) ∧
      (default_sink Engine.nothrow
        (Process.start [("HOME", "/root"), ("RMM_DEBUG_LOG_FILE", "/tmp/rmm.log")])).1
        ≠ .ok Sink.stderr_sink_mt :=
  default_sink_file_when_set Engine.nothrow
    (Process.start [("HOME", "/root"), ("RMM_DEBUG_LOG_FILE", "/tmp/rmm.log")])
    "/tmp/rmm.log" (by decide) (by decide) rfl

/-- C2, as the spec states it, fails: with RMM_DEBUG_LOG_FILE set to the empty
string, `default_sink` returns a file sink (for the empty path), not the
standard-error sink, and the file sink constructor has been called. -/
theorem default_sink_empty_value_counterexample :
    (default_sink Engine.nothrow (Process.start [("RMM_DEBUG_LOG_FILE", "")])).1
        = .ok (Sink.basic_file_sink_mt "" true) ∧
      (default_sink Engine.nothrow (Process.start [("RMM_DEBUG_LOG_FILE", "")])).1
        ≠ .ok Sink.stderr_sink_mt ∧
      (default_sink Engine.nothrow (Process.start [("RMM_DEBUG_LOG_FILE", "")])).2.trace
        = [Event.getenv "RMM_DEBUG_LOG_FILE", Event.basic_file_sink_mt "" true] := by
  rw [default_sink_of_set Engine.nothrow _ "" (by decide) rfl]
  simp [Process.record, Process.start]

/-- C2, amended: in every process whose environment has RMM_DEBUG_LOG_FILE set
to the empty string, `default_sink` tests the pointer only, so (the constructor
returning) it constructs and returns a file sink for the empty path, not the
standard-error sink. -/
theorem default_sink_empty_value_is_file (eng : Engine) (p : Process)
    (hset : getenv p.env "RMM_DEBUG_LOG_FILE" = some "")
    (hok : eng.basic_file_sink_mt "" true = none) :
    (default_sink eng p).1 = .ok (Sink.basic_file_sink_mt "" true) ∧
      (default_sink eng p).1 ≠ .ok Sink.stderr_sink_mt ∧
      (default_sink eng p).2.trace
        = p.trace ++ [Event.getenv "RMM_DEBUG_LOG_FILE", Event.basic_file_sink_mt "" true] := by
  rw [default_sink_of_set eng p "" hset hok]
  simp [Process.record]

theorem default_sink_empty_value_is_file_witness :
    (default_sink Engine.nothrow
        (Process.start [("RMM_DEBUG_LOG_FILE", ""), ("LANG", "C")])).1
      = .ok (Sink.basic_file_sink_mt "" true) :=
  (default_sink_empty_value_is_file Engine.nothrow
    (Process.start [("RMM_DEBUG_LOG_FILE", ""), ("LANG", "C")]) (by decide) rfl).1

/-- C3: in every process whose environment does not have RMM_DEBUG_LOG_FILE,
`default_sink` (the constructor returning) returns the standard-error sink; the
calls it makes are the environment read and the construction of that sink, and
no file sink is constructed. -/
theorem default_sink_stderr_when_unset (eng : Engine) (p : Process)
    (hunset : getenv p.env "RMM_DEBUG_LOG_FILE" = none)
    (hok : eng.stderr_sink_mt = none) :
    (default_sink eng p).1 = .ok Sink.stderr_sink_mt ∧
      (default_sink eng p).2.trace
        = p.trace ++ [Event.getenv "RMM_DEBUG_LOG_FILE", Event.stderr_sink_mt] ∧
      (default_sink eng p).2.trace.countP Event.isFileSink
        = p.trace.countP Event.isFileSink := by
  rw [default_sink_of_unset eng p hunset hok]
  simp [Process.record, List.countP_append, Event.isFileSink]

theorem default_sink_stderr_when_unset_witness :
    (default_sink Engine.nothrow (Process.start [("HOME", "/root")])).1
        = .ok Sink.stderr_sink_mt ∧
      (default_sink Engine.nothrow (Process.start [("HOME", "/root")])).2.trace
        = (Process.start [("HOME", "/root")]).trace
            ++ [Event.getenv "RMM_DEBUG_LOG_FILE", Event.stderr_sink_mt] ∧
      (default_sink Engine.nothrow (Process.start [("HOME", "/root")])).2.trace.countP
          Event.isFileSink
        = (Process.start [("HOME", "/root")]).trace.countP Event.isFileSink :=
  default_sink_stderr_when_unset Engine.nothrow (Process.start [("HOME", "/root")])
    (by decide) rfl

/-- C4, as the spec states it, fails: the file sink `default_sink` builds for
the path "rmm.log" is constructed with the truncate flag set, so it empties the
file when it opens it and does not keep what the file held. -/
theorem default_sink_append_counterexample :
    ∃ s, (default_sink Engine.nothrow
        (Process.start [("RMM_DEBUG_LOG_FILE", "rmm.log")])).1 = .ok s ∧
      s = Sink.basic_file_sink_mt "rmm.log" true ∧ s.truncates = true := by
  refine ⟨Sink.basic_file_sink_mt "rmm.log" true, ?_, rfl, rfl⟩
  rw [default_sink_of_set Engine.nothrow _ "rmm.log" (by decide) rfl]

/-- C4, amended: every file sink `default_sink` returns was constructed for
the value of RMM_DEBUG_LOG_FILE with the literal `true` as second constructor
argument, the truncate flag: the sink truncates, for every path. -/
theorem default_sink_file_truncate_flag (eng : Engine) (p : Process)
    (filename : String) (truncate : Bool)
    (h : (default_sink eng p).1 = .ok (Sink.basic_file_sink_mt filename truncate)) :
    truncate = true ∧
      (Sink.basic_file_sink_mt filename truncate).truncates = true ∧
      getenv p.env "RMM_DEBUG_LOG_FILE" = some filename ∧
      (default_sink eng p).2.trace
        = p.trace ++ [Event.getenv "RMM_DEBUG_LOG_FILE",
            Event.basic_file_sink_mt filename true] := by
  rcases default_sink_ok eng p _ h with ⟨path, hset, hs⟩ | ⟨_, hs⟩
  · simp at hs
    obtain ⟨h1, h2⟩ := hs
    subst h1
    subst h2
    have hok : eng.basic_file_sink_mt filename true = none := by
      cases he : eng.basic_file_sink_mt filename true with
      | none => rfl
      | some e => simp [default_sink, hset, he] at h
    refine ⟨rfl, rfl, hset, ?_⟩
    rw [default_sink_of_set eng p filename hset hok]
    simp [Process.record]
  · simp at hs

theorem default_sink_file_truncate_flag_witness :
    (Sink.basic_file_sink_mt "/var/log/rmm.log" true).truncates = true ∧
      getenv (Process.start [("RMM_DEBUG_LOG_FILE", "/var/log/rmm.log")]).env
        "RMM_DEBUG_LOG_FILE" = some "/var/log/rmm.log" ∧
      (default_sink Engine.nothrow
          (Process.start [("RMM_DEBUG_LOG_FILE", "/var/log/rmm.log")])).2.trace
        = (Process.start [("RMM_DEBUG_LOG_FILE", "/var/log/rmm.log")]).trace
            ++ [Event.getenv "RMM_DEBUG_LOG_FILE",
              Event.basic_file_sink_mt "/var/log/rmm.log" true] :=
  (default_sink_file_truncate_flag Engine.nothrow
    (Process.start [("RMM_DEBUG_LOG_FILE", "/var/log/rmm.log")]) "/var/log/rmm.log" true
    rfl).2

/-! The pattern provider -/

/-- C8: `default_pattern` takes no input and reads no state; its value is the
string "[%6t][%H:%M:%S:%f][%-6l] %v", which is, in this order, the thread id
token %6t, the timestamp tokens %H:%M:%S:%f, the level token %-6l and the
message token %v, each in its literal brackets. -/
theorem default_pattern_constant :
    default_pattern = "[%6t][%H:%M:%S:%f][%-6l] %v" ∧
      default_pattern
        = "[" ++ "%6t" ++ "]" ++ "[" ++ "%H:%M:%S:%f" ++ "]" ++ "[" ++ "%-6l" ++ "]" ++ " "
            ++ "%v" := by
  constructor
  · rfl
  · decide

/-! The logger accessor -/

/-- C7: for every environment, the logger the first call of `default_logger`
returns (each step of the initialisation returning) is named "RMM", has a sink
sequence of length one whose only element is the sink `default_sink` returns
under that environment, and has `default_pattern` as its pattern; it is the
logger stored in the static. -/
theorem default_logger_first_call_configuration (eng : Engine) (p : Process) (s : Sink)
    (hfresh : p.logger_ = none)
    (hs : (default_sink eng p).1 = .ok s)
    (hl : eng.logger "RMM" [s] = none)
    (hsp : eng.set_pattern default_pattern = none) :
    ∃ l q, default_logger eng p = (.ok l, q) ∧ l.name = "RMM" ∧ l.sinks = [s] ∧
      l.sinks.length = 1 ∧ l.pattern = some default_pattern ∧ q.logger_ = some l := by
  have hi := logger_init_of_ok eng p s hs hl hsp
  have hd : default_logger eng p =
      (.ok { id := (default_sink eng p).2.trace.countP Event.isLogger, name := "RMM",
             sinks := [s], pattern := some default_pattern },
        { ((default_sink eng p).2.record (.logger "RMM" [s])).record
            (.set_pattern default_pattern) with
          logger_ := some { id := (default_sink eng p).2.trace.countP Event.isLogger,
                            name := "RMM", sinks := [s],
                            pattern := some default_pattern } }) := by
    simp only [default_logger, hfresh, hi]
  exact ⟨_, _, hd, rfl, rfl, rfl, rfl, rfl⟩

theorem default_logger_first_call_configuration_witness :
    ∃ l q,
      default_logger Engine.nothrow (Process.start [("RMM_DEBUG_LOG_FILE", "rmm.log")])
        = (.ok l, q) ∧
      l.name = "RMM" ∧ l.sinks = [Sink.basic_file_sink_mt "rmm.log" true] ∧
      l.sinks.length = 1 ∧ l.pattern = some default_pattern ∧ q.logger_ = some l :=
  default_logger_first_call_configuration Engine.nothrow
    (Process.start [("RMM_DEBUG_LOG_FILE", "rmm.log")])
    (Sink.basic_file_sink_mt "rmm.log" true) rfl rfl rfl rfl

/-- C5, as the spec states it, fails: when `set_pattern` throws in the first
call, the logger built in that call is discarded and nothing is stored; the next
call runs the initialiser again.  Two loggers have been constructed in the
process, and the second call, a call made after the first one, changes the
static from uninitialised to the new logger. -/
theorem default_logger_singleton_counterexample :
    (run [Op.default_logger (Engine.set_pattern_throws "std::bad_alloc"),
          Op.default_logger Engine.nothrow]
        (Process.start [])).2.trace.countP Event.isLogger = 2 ∧
      (run [Op.default_logger (Engine.set_pattern_throws "std::bad_alloc")]
        (Process.start [])).2.logger_ = none ∧
      (run [Op.default_logger (Engine.set_pattern_throws "std::bad_alloc"),
            Op.default_logger Engine.nothrow]
        (Process.start [])).2.logger_
        = some ⟨1, "RMM", [Sink.stderr_sink_mt], some default_pattern⟩ := by
  refine ⟨?_, ?_, ?_⟩ <;> rfl

/-- C5, amended: in every run of a process (calls of `default_logger`
interleaved with changes of the environment), the calls that return all return
one and the same logger object; once a call has returned, that object is the
one in the static, and any further call returns it again and leaves the process
state as it is; and the loggers ever constructed are at most one more than the
calls that threw, so at most one when no call throws. -/
theorem default_logger_singleton (env : Env) (ops : List Op) :
    (∀ l1 l2, Except.ok l1 ∈ (run ops (Process.start env)).1 →
        Except.ok l2 ∈ (run ops (Process.start env)).1 → l1 = l2) ∧
      (∀ l, Except.ok l ∈ (run ops (Process.start env)).1 →
        (run ops (Process.start env)).2.logger_ = some l ∧
        ∀ eng : Engine,
          default_logger eng (run ops (Process.start env)).2
            = (.ok l, (run ops (Process.start env)).2)) ∧
      (run ops (Process.start env)).2.trace.countP Event.isLogger
        ≤ (run ops (Process.start env)).1.countP threw + 1 ∧
      ((run ops (Process.start env)).1.countP threw = 0 →
        (run ops (Process.start env)).2.trace.countP Event.isLogger ≤ 1) := by
  obtain ⟨hcount, hsame, hst⟩ := run_general ops (Process.start env) rfl
  have hc : (run ops (Process.start env)).2.trace.countP Event.isLogger
      ≤ (run ops (Process.start env)).1.countP threw + 1 := by
    simpa [Process.start] using hcount
  refine ⟨hsame, fun l hl => ⟨hst l hl, fun eng => default_logger_of_some eng _ l (hst l hl)⟩,
    hc, fun h0 => ?_⟩
  rw [h0] at hc
  exact hc

/-- C6, as the spec states it, fails: two runs start with RMM_DEBUG_LOG_FILE
set to "a.log" at the first call.  In the first run the call returns a logger
on "a.log".  In the second `set_pattern` throws in the first call, after the
sink for "a.log" has been selected; the variable is then changed to "b.log", and
the next call returns a logger on "b.log": the environment has been read twice,
and the later value has been taken up. -/
theorem default_logger_late_environment_counterexample :
    (run [Op.default_logger Engine.nothrow,
          Op.environ [("RMM_DEBUG_LOG_FILE", "b.log")],
          Op.default_logger Engine.nothrow]
        (Process.start [("RMM_DEBUG_LOG_FILE", "a.log")])).1
        = [.ok ⟨0, "RMM", [Sink.basic_file_sink_mt "a.log" true], some default_pattern⟩,
           .ok ⟨0, "RMM", [Sink.basic_file_sink_mt "a.log" true], some default_pattern⟩] ∧
      (run [Op.default_logger (Engine.set_pattern_throws "std::bad_alloc"),
            Op.environ [("RMM_DEBUG_LOG_FILE", "b.log")],
            Op.default_logger Engine.nothrow]
        (Process.start [("RMM_DEBUG_LOG_FILE", "a.log")])).1
        = [.error "std::bad_alloc",
           .ok ⟨1, "RMM", [Sink.basic_file_sink_mt "b.log" true], some default_pattern⟩] ∧
      (run [Op.default_logger (Engine.set_pattern_throws "std::bad_alloc"),
            Op.environ [("RMM_DEBUG_LOG_FILE", "b.log")],
            Op.default_logger Engine.nothrow]
        (Process.start [("RMM_DEBUG_LOG_FILE", "a.log")])).2.trace
        = [Event.getenv "RMM_DEBUG_LOG_FILE", Event.basic_file_sink_mt "a.log" true,
           Event.logger "RMM" [Sink.basic_file_sink_mt "a.log" true],
           Event.getenv "RMM_DEBUG_LOG_FILE", Event.basic_file_sink_mt "b.log" true,
           Event.logger "RMM" [Sink.basic_file_sink_mt "b.log" true],
           Event.set_pattern default_pattern] := by
  refine ⟨?_, ?_, ?_⟩ <;> rfl

/-- C6, amended: late changes of the environment are ignored once a call of
`default_logger` has returned.  Take two processes whose static is not yet
initialised, with the same environment, and in each a call that returns (the
initialising call).  The two loggers have the same sink sequence, the one sink
selected under that environment, and the same pattern; the initialising call
reads the environment exactly once; and whatever the processes do afterwards
(any changes of the environment, any further calls), every later call returns
the logger of the initialising call and nothing is executed again: the trace
stays as that call left it.  Nothing is said of a call that throws. -/
theorem default_logger_ignores_late_environment (eng1 eng2 : Engine)
    (p q p1 q1 : Process) (l1 l2 : Logger)
    (hp : p.logger_ = none) (hq : q.logger_ = none) (henv : p.env = q.env)
    (h1 : default_logger eng1 p = (.ok l1, p1))
    (h2 : default_logger eng2 q = (.ok l2, q1)) :
    l1.sinks = l2.sinks ∧ l1.pattern = l2.pattern ∧
      (∃ s, (default_sink eng1 p).1 = .ok s ∧ l1.sinks = [s]) ∧
      l1.pattern = some default_pattern ∧
      p1.trace.countP Event.isGetenv = p.trace.countP Event.isGetenv + 1 ∧
      q1.trace.countP Event.isGetenv = q.trace.countP Event.isGetenv + 1 ∧
      ∀ ops1 ops2 : List Op,
        (∀ r ∈ (run ops1 p1).1, r = .ok l1) ∧
        (run ops1 p1).2.logger_ = some l1 ∧ (run ops1 p1).2.trace = p1.trace ∧
        (∀ r ∈ (run ops2 q1).1, r = .ok l2) ∧
        (run ops2 q1).2.logger_ = some l2 ∧ (run ops2 q1).2.trace = q1.trace := by
  obtain ⟨hst1, _, _, hg1, _, _, ⟨s1, hs1, hsk1⟩, hpat1⟩ :=
    default_logger_first_ok_facts eng1 p p1 l1 hp h1
  obtain ⟨hst2, _, _, hg2, _, _, ⟨s2, hs2, hsk2⟩, hpat2⟩ :=
    default_logger_first_ok_facts eng2 q q1 l2 hq h2
  have hss : s1 = s2 := by
    rcases default_sink_ok eng1 p s1 hs1 with ⟨a, ha, hsa⟩ | ⟨ha, hsa⟩ <;>
      rcases default_sink_ok eng2 q s2 hs2 with ⟨b, hb, hsb⟩ | ⟨hb, hsb⟩ <;>
      rw [henv] at ha <;> rw [ha] at hb <;> simp at hb
    · rw [hsa, hsb, hb]
    · rw [hsa, hsb]
  refine ⟨by rw [hsk1, hsk2, hss], by rw [hpat1, hpat2], ⟨s1, hs1, hsk1⟩, hpat1, hg1, hg2, ?_⟩
  intro ops1 ops2
  obtain ⟨ha, hb, hc⟩ := run_of_some ops1 p1 l1 hst1
  obtain ⟨hd, he, hf⟩ := run_of_some ops2 q1 l2 hst2
  exact ⟨ha, hb, hc, hd, he, hf⟩

theorem default_logger_ignores_late_environment_witness :
    (run [Op.environ [("RMM_DEBUG_LOG_FILE", "b.log")], Op.default_logger Engine.nothrow,
          Op.environ [], Op.default_logger Engine.nothrow]
        { env := [("RMM_DEBUG_LOG_FILE", "a.log")],
          logger_ := some ⟨0, "RMM", [Sink.basic_file_sink_mt "a.log" true],
            some default_pattern⟩,
          trace := [Event.getenv "RMM_DEBUG_LOG_FILE",
            Event.basic_file_sink_mt "a.log" true,
            Event.logger "RMM" [Sink.basic_file_sink_mt "a.log" true],
            Event.set_pattern default_pattern] }).2.logger_
      = some ⟨0, "RMM", [Sink.basic_file_sink_mt "a.log" true], some default_pattern⟩ :=
  ((default_logger_ignores_late_environment Engine.nothrow Engine.nothrow
    (Process.start [("RMM_DEBUG_LOG_FILE", "a.log")])
    { env := [("RMM_DEBUG_LOG_FILE", "a.log")], logger_ := none,
      trace := [Event.getenv "HOME"] }
    { env := [("RMM_DEBUG_LOG_FILE", "a.log")],
      logger_ := some ⟨0, "RMM", [Sink.basic_file_sink_mt "a.log" true],
        some default_pattern⟩,
      trace := [Event.getenv "RMM_DEBUG_LOG_FILE",
        Event.basic_file_sink_mt "a.log" true,
        Event.logger "RMM" [Sink.basic_file_sink_mt "a.log" true],
        Event.set_pattern default_pattern] }
    { env := [("RMM_DEBUG_LOG_FILE", "a.log")],
      logger_ := some ⟨0, "RMM", [Sink.basic_file_sink_mt "a.log" true],
        some default_pattern⟩,
      trace := [Event.getenv "HOME", Event.getenv "RMM_DEBUG_LOG_FILE",
        Event.basic_file_sink_mt "a.log" true,
        Event.logger "RMM" [Sink.basic_file_sink_mt "a.log" true],
        Event.set_pattern default_pattern] }
    ⟨0, "RMM", [Sink.basic_file_sink_mt "a.log" true], some default_pattern⟩
    ⟨0, "RMM", [Sink.basic_file_sink_mt "a.log" true], some default_pattern⟩
    rfl rfl rfl rfl rfl).2.2.2.2.2.2
    [Op.environ [("RMM_DEBUG_LOG_FILE", "b.log")], Op.default_logger Engine.nothrow,
      Op.environ [], Op.default_logger Engine.nothrow]
    []).2.1

/-- C9: when, in a first call of `default_logger`, the sink construction, the
logger construction or `set_pattern` throws `e`, the call throws `e` to its
caller and the static stays uninitialised; and whatever the process does
afterwards, every logger a later call returns is named "RMM", has exactly one
sink attached and has `default_pattern` applied. -/
theorem default_logger_failure_propagates (eng : Engine) (p : Process) (e : Error)
    (hfresh : p.logger_ = none)
    (hfail : (default_sink eng p).1 = .error e ∨
      (∃ s, (default_sink eng p).1 = .ok s ∧ eng.logger "RMM" [s] = some e) ∨
      (∃ s, (default_sink eng p).1 = .ok s ∧ eng.logger "RMM" [s] = none ∧
        eng.set_pattern default_pattern = some e)) :
    (default_logger eng p).1 = .error e ∧
      (default_logger eng p).2.logger_ = none ∧
      ∀ (ops : List Op) (l : Logger),
        Except.ok l ∈ (run ops (default_logger eng p).2).1 →
        l.name = "RMM" ∧ (∃ s, l.sinks = [s]) ∧ l.pattern = some default_pattern := by
  obtain ⟨herr, hst⟩ :=
    default_logger_first_error eng p e hfresh (logger_init_error eng p e hfail)
  exact ⟨herr, hst, fun ops l hl => run_ok_configured ops _ hst l hl⟩

theorem default_logger_failure_propagates_witness :
    (default_logger (Engine.set_pattern_throws "std::bad_alloc")
        (Process.start [("RMM_DEBUG_LOG_FILE", "rmm.log")])).1 = .error "std::bad_alloc" ∧
      (default_logger (Engine.set_pattern_throws "std::bad_alloc")
        (Process.start [("RMM_DEBUG_LOG_FILE", "rmm.log")])).2.logger_ = none :=
  have h := default_logger_failure_propagates (Engine.set_pattern_throws "std::bad_alloc")
    (Process.start [("RMM_DEBUG_LOG_FILE", "rmm.log")]) "std::bad_alloc" rfl
    (Or.inr (Or.inr ⟨Sink.basic_file_sink_mt "rmm.log" true, rfl, rfl, rfl⟩))
  ⟨h.1, h.2.1⟩

end rmm
